import Mathlib

/-!
Verification development for the asynchronous text-to-speech job pipeline.

The HTTP route handlers (`src/app/api/tts/route.ts` and
`src/app/api/tts/[jobId]/audio/route.ts`, plus the sibling status route) are
embedded directly from the source.  The job manager module
(`@/lib/ttsJobManager`: `createSynthesisJob`, `getJob`, `getJobAudio`) and the
voice catalog (`@/lib/voices`) are not part of the available source tree; the
definitions standing in for them are modelled from the specification and are
marked as such in their doc comments.
-/

namespace TTS

/-- Model of a JavaScript number as used by the routes: either a finite value
(modelled as a rational, which covers every payload the routes manipulate) or
NaN.  Infinities are not needed by any route and are folded into NaN. -/
inductive JSNum where
  | rat (q : ℚ)
  | nan
deriving DecidableEq

/-- Model of a JavaScript value as it can appear in a parsed JSON request
payload after destructuring: `undefined` stands for an absent field. -/
inductive JSVal where
  | undefined
  | null
  | bool (b : Bool)
  | num (n : JSNum)
  | str (s : String)
deriving DecidableEq

/-- JavaScript truthiness, as used by the `!text` and `!voiceId` guards:
`undefined`, `null`, `false`, `0`, `NaN` and the empty string are falsy. -/
def truthy : JSVal → Bool
  | JSVal.undefined => false
  | JSVal.null => false
  | JSVal.bool b => b
  | JSVal.num (JSNum.rat q) => decide (q ≠ 0)
  | JSVal.num JSNum.nan => false
  | JSVal.str s => decide (s ≠ "")

/-- JavaScript nullish test: exactly `undefined` and `null`. -/
def nullish : JSVal → Bool
  | JSVal.undefined => true
  | JSVal.null => true
  | _ => false

/-- The JavaScript nullish-coalescing operator `v ?? d`. -/
def coalesce (v d : JSVal) : JSVal := if nullish v then d else v

/-- Drop leading and trailing whitespace characters from a character list. -/
def trimChars (cs : List Char) : List Char :=
  ((cs.dropWhile Char.isWhitespace).reverse.dropWhile Char.isWhitespace).reverse

/-- Model of JavaScript `String.prototype.trim`: remove leading and trailing
whitespace. -/
def jsTrim (s : String) : String := String.mk (trimChars s.data)

/-- Parse a non-empty all-digit character list as a natural number. -/
def parseNatDigits (cs : List Char) : Option Nat :=
  if cs.isEmpty then none
  else if cs.all Char.isDigit then
    some (cs.foldl (fun a c => 10 * a + (c.toNat - 48)) 0)
  else none

/-- Model of the JavaScript `Number()` conversion on strings: the string is
trimmed; the empty result converts to `0`; an optional sign followed by decimal
digits with an optional fractional part converts to the corresponding
rational; every other string (the model folds hex, exponent and `Infinity`
forms into this case) converts to NaN. -/
def strToNum (s : String) : JSNum :=
  let cs := (jsTrim s).data
  if cs.isEmpty then JSNum.rat 0 else
  let sign : ℚ × List Char :=
    match cs with
    | '-' :: rest => (-1, rest)
    | '+' :: rest => (1, rest)
    | _ => (1, cs)
  let body := sign.2
  let intPart := body.takeWhile (fun c => c ≠ '.')
  let rest := body.dropWhile (fun c => c ≠ '.')
  match rest with
  | [] =>
    match parseNatDigits intPart with
    | some n => JSNum.rat (sign.1 * n)
    | none => JSNum.nan
  | _ :: frac =>
    if intPart.isEmpty && frac.isEmpty then JSNum.nan
    else
      let ip : Option Nat := if intPart.isEmpty then some 0 else parseNatDigits intPart
      let fp : Option (Nat × Nat) :=
        if frac.isEmpty then some (0, 0)
        else (parseNatDigits frac).map (fun n => (n, frac.length))
      match ip, fp with
      | some i, some fk => JSNum.rat (sign.1 * ((i : ℚ) + (fk.1 : ℚ) / 10 ^ fk.2))
      | _, _ => JSNum.nan

/-- Model of the JavaScript `Number()` coercion on every payload value. -/
def toNumber : JSVal → JSNum
  | JSVal.undefined => JSNum.nan
  | JSVal.null => JSNum.rat 0
  | JSVal.bool false => JSNum.rat 0
  | JSVal.bool true => JSNum.rat 1
  | JSVal.num n => n
  | JSVal.str s => strToNum s

/-- Job lifecycle states, from the `status` field of the job records the
routes read: queued, processing, completed, failed. -/
inductive Status where
  | queued
  | processing
  | completed
  | failed
deriving DecidableEq

/-- The synthesis request assembled by the submit route at
`src/app/api/tts/route.ts` lines 23-29 and handed to `createSynthesisJob`. -/
structure SynthesisRequest where
  text : String
  voiceId : String
  speed : JSNum
  pitch : JSNum
  emotion : String
deriving DecidableEq

/-- A job record, with the fields the status route reads (`id`, `status`,
`progress`, `error`, `duration`) plus the request it was created from. -/
structure Job where
  id : String
  request : SynthesisRequest
  status : Status
  progress : Nat
  error : Option String
  duration : Option ℚ
deriving DecidableEq

/-- Model of a Node `Buffer`: a view of `byteLength` bytes starting at
`byteOffset` into a backing `buffer` of raw bytes, exactly the three fields
the audio route reads. -/
structure ByteBuf where
  buffer : List Nat
  byteOffset : Nat
  byteLength : Nat
deriving DecidableEq

/-- A Node `Buffer`'s `length` property is its `byteLength`. -/
def ByteBuf.length (b : ByteBuf) : Nat := b.byteLength

/-- The bytes a buffer view holds:
`buffer.slice(byteOffset, byteOffset + byteLength)`. -/
def ByteBuf.bytes (b : ByteBuf) : List Nat :=
  (b.buffer.drop b.byteOffset).take b.byteLength

/-- Modelled from the spec: the JobStore of `@/lib/ttsJobManager` (not under
src/) is an in-memory registry of job records keyed by job identifier, with
the committed audio buffers stored alongside. -/
structure JobStore where
  jobs : List (String × Job)
  audio : List (String × ByteBuf)
deriving DecidableEq

/-- Modelled from the spec: `getJob` looks a job up by id; an unknown id
yields an explicit absent signal, never a default or empty job. -/
def getJob (s : JobStore) (id : String) : Option Job := s.jobs.lookup id

/-- Modelled from the spec: `getJobAudio` looks up the committed audio buffer
of a job; absent when no buffer has been committed. -/
def getJobAudio (s : JobStore) (id : String) : Option ByteBuf := s.audio.lookup id

/-- A job store with no jobs. -/
def emptyStore : JobStore := { jobs := [], audio := [] }

/-- Modelled from the spec: a freshly created job starts in state `queued`
with progress 0 and no error, duration or audio. -/
def initialJob (id : String) (req : SynthesisRequest) : Job :=
  { id := id, request := req, status := Status.queued, progress := 0,
    error := none, duration := none }

/-- Modelled from the spec: job-id generation (a UUID in the source system) is
modelled as a fresh identifier derived from the store size. -/
def freshId (s : JobStore) : String := "job-" ++ toString s.jobs.length

/-- Register a newly created job in the store. -/
def addJob (s : JobStore) (id : String) (req : SynthesisRequest) : JobStore :=
  { s with jobs := s.jobs ++ [(id, initialJob id req)] }

/-- Modelled from the spec: the VoiceCatalog of `@/lib/voices` (not under
src/) is a static mapping from voice identifier to synthesis parameters; the
identifiers `masc-deep` and `fem-soft` are the ones the client module
references explicitly. -/
def VOICE_IDS : List String := ["masc-deep", "fem-soft"]

/-- Errors `createSynthesisJob` can raise synchronously at submit time. -/
inductive SubmitError where
  | invalidRequest (message : String)
deriving DecidableEq

/-- The human-readable message of a submit-time error. -/
def SubmitError.message : SubmitError → String
  | SubmitError.invalidRequest m => m

/-- Modelled from the spec: `createSynthesisJob` of `@/lib/ttsJobManager` (not
under src/) validates the request once at submission; a `voiceId` that does
not resolve in the VoiceCatalog fails synchronously with `InvalidRequest` and
no job is created; otherwise a job is created in state `queued` and its fresh
id is returned while the pipeline runs detached. -/
def createSynthesisJob (s : JobStore) (req : SynthesisRequest) :
    Except SubmitError (String × JobStore) :=
  if req.voiceId ∈ VOICE_IDS then
    Except.ok (freshId s, addJob s (freshId s) req)
  else
    Except.error (SubmitError.invalidRequest "Voz não encontrada")

/-- The character limit of the submit route. -/
def MAX_CHARACTERS : Nat := 100000

/-- The submit payload after `const { text, voiceId, speed, pitch, emotion } =
payload ?? {}`: each field is a JavaScript value, `undefined` when absent. -/
structure Payload where
  text : JSVal
  voiceId : JSVal
  speed : JSVal
  pitch : JSVal
  emotion : JSVal
deriving DecidableEq

/-- The numeric-parameter coercion of the submit route:
`typeof v === "number" ? v : Number(v ?? d)`. -/
def coerceParam (v : JSVal) (d : ℚ) : JSNum :=
  match v with
  | JSVal.num n => n
  | _ => toNumber (coalesce v (JSVal.num (JSNum.rat d)))

/-- The request object built by the submit route at lines 23-29: `text` and
`voiceId` pass through, `speed` defaults via `Number(speed ?? 1)`, `pitch` via
`Number(pitch ?? 0)`, and `emotion` falls back to `"neutro"` when it is not a
string. -/
def buildRequest (t v : String) (p : Payload) : SynthesisRequest :=
  { text := t, voiceId := v,
    speed := coerceParam p.speed 1,
    pitch := coerceParam p.pitch 0,
    emotion := match p.emotion with | JSVal.str e => e | _ => "neutro" }

/-- The character-limit check of the submit route:
`text.length > MAX_CHARACTERS`. -/
def exceedsLimit (t : String) : Bool := decide (MAX_CHARACTERS < t.length)

/-- The response of the submit route: a 400 validation rejection, a 202
acceptance carrying the job id, or the 500 produced by the catch block. -/
inductive PostResponse where
  | badRequest (message : String)
  | accepted (jobId : String)
  | serverError (message : String)
deriving DecidableEq

/-- The POST handler of `src/app/api/tts/route.ts`, returning the response
together with the resulting job store.  The three guards mirror the source:
`!text || typeof text !== "string" || !text.trim()`, then
`text.length > MAX_CHARACTERS`, then `!voiceId || typeof voiceId !== "string"`;
only then is `createSynthesisJob` invoked, whose synchronous error is caught
and surfaced as a 500 with the error's message. -/
def POST (s : JobStore) (p : Payload) : PostResponse × JobStore :=
  match p.text with
  | JSVal.str t =>
    if !truthy (JSVal.str t) || jsTrim t == "" then
      (PostResponse.badRequest "Texto inválido", s)
    else if exceedsLimit t then
      (PostResponse.badRequest "Limite de caracteres excedido", s)
    else
      match p.voiceId with
      | JSVal.str v =>
        if !truthy (JSVal.str v) then
          (PostResponse.badRequest "Selecione uma voz", s)
        else
          match createSynthesisJob s (buildRequest t v p) with
          | Except.ok idStore => (PostResponse.accepted idStore.1, idStore.2)
          | Except.error e => (PostResponse.serverError e.message, s)
      | _ => (PostResponse.badRequest "Selecione uma voz", s)
  | _ => (PostResponse.badRequest "Texto inválido", s)

/-- The response of the audio route: a JSON error with an HTTP status and
message, or a 200 response carrying the body bytes and the numeric value of
the `Content-Length` header. -/
inductive AudioResponse where
  | error (status : Nat) (message : String)
  | ok (body : List Nat) (contentLength : Nat)
deriving DecidableEq

/-- The GET handler of `src/app/api/tts/[jobId]/audio/route.ts`: 404 for an
unknown id, 409 while the job is not completed, 404 with a distinct message
when a completed job has no committed buffer, otherwise a 200 whose body is
`audio.buffer.slice(audio.byteOffset, audio.byteOffset + audio.byteLength)`
and whose `Content-Length` is `audio.length`. -/
def GET_audio (s : JobStore) (jobId : String) : AudioResponse :=
  match getJob s jobId with
  | none => AudioResponse.error 404 "Job não encontrado"
  | some job =>
    if job.status ≠ Status.completed then
      AudioResponse.error 409 "Áudio ainda não disponível"
    else
      match getJobAudio s jobId with
      | none => AudioResponse.error 404 "Áudio não encontrado"
      | some audio =>
        AudioResponse.ok ((audio.buffer.drop audio.byteOffset).take audio.byteLength)
          audio.length

/-- The response of the status route: a 404 error for an unknown id, or the
job view `{status, progress, error, downloadUrl, duration}`. -/
inductive StatusResponse where
  | notFound (message : String)
  | view (status : Status) (progress : Nat) (error : Option String)
      (downloadUrl : Option String) (duration : Option ℚ)
deriving DecidableEq

/-- The GET handler of the status route (`src/app/api/tts/[jobId]/route.ts`):
404 for an unknown id, otherwise the job's current view, with `downloadUrl`
set only once the job is completed. -/
def GET_status (s : JobStore) (jobId : String) : StatusResponse :=
  match getJob s jobId with
  | none => StatusResponse.notFound "Job não encontrado"
  | some job =>
    StatusResponse.view job.status job.progress job.error
      (if job.status = Status.completed
        then some ("/api/tts/" ++ job.id ++ "/audio") else none)
      job.duration

/-- Whether a job is in a terminal state (`completed` or `failed`). -/
def isTerminal (j : Job) : Bool :=
  match j.status with
  | Status.completed => true
  | Status.failed => true
  | _ => false

/-- Modelled from the spec: the mutations the pipeline (in
`@/lib/ttsJobManager`, not under src/) applies to its job while driving it
from `queued` to a terminal state: mark it `processing` with progress 1,
record a completed chunk with progress `5 + 85 * completed / total`, map an
encoder progress percentage onto the final ten percent, commit completion
with progress 100, or record a failure message. -/
inductive JobEvent where
  | markProcessing
  | chunkDone (completed total : Nat)
  | encodeProgress (pct : Nat)
  | complete
  | fail (msg : String)
deriving DecidableEq

/-- Modelled from the spec: applying one pipeline mutation through the
JobStore's `mutate`; a mutation of a job that has already reached a terminal
state is rejected as a no-op, terminal states being final. -/
def applyEvent (j : Job) (e : JobEvent) : Job :=
  if isTerminal j then j
  else
    match e with
    | JobEvent.markProcessing => { j with status := Status.processing, progress := 1 }
    | JobEvent.chunkDone k n => { j with progress := 5 + 85 * k / n }
    | JobEvent.encodeProgress p => { j with progress := 90 + p / 10 }
    | JobEvent.complete => { j with status := Status.completed, progress := 100 }
    | JobEvent.fail m => { j with status := Status.failed, error := some m }

/-- Run a sequence of pipeline mutations on a job. -/
def runEvents (j : Job) (es : List JobEvent) : Job := es.foldl applyEvent j

/-- Whether the job's progress never decreases along a sequence of pipeline
mutations started from `j`. -/
def progressMonoB (j : Job) : List JobEvent → Bool
  | [] => true
  | e :: es =>
    decide (j.progress ≤ (applyEvent j e).progress) && progressMonoB (applyEvent j e) es

/-- The chunk-completion events for chunks `i+1, ..., i+m` out of `n`. -/
def chunkEventsFrom (i m n : Nat) : List JobEvent :=
  match m with
  | 0 => []
  | Nat.succ m1 => JobEvent.chunkDone (i + 1) n :: chunkEventsFrom (i + 1) m1 n

/-- Modelled from the spec: the lifetime of a successful job with `n` chunks
whose encoder reports the percentages `ps`: mark processing, complete the
chunks in order, relay the encoder progress events, then commit completion. -/
def pipelineTrace (n : Nat) (ps : List Nat) : List JobEvent :=
  JobEvent.markProcessing ::
    (chunkEventsFrom 0 n n ++ (ps.map JobEvent.encodeProgress ++ [JobEvent.complete]))

/-- Whether a list of naturals is non-decreasing; the encoder's progress
events are ordered, so its reported percentages satisfy this. -/
def chainLe : List Nat → Bool
  | [] => true
  | [_] => true
  | a :: b :: t => decide (a ≤ b) && chainLe (b :: t)

/-- A sample synthesis request used by the concrete evaluation theorems. -/
def sampleRequest : SynthesisRequest :=
  { text := "Olá mundo", voiceId := "fem-soft", speed := JSNum.rat 1,
    pitch := JSNum.rat 0, emotion := "neutro" }

/-- A sample completed job. -/
def completedJob : Job :=
  { id := "job-0", request := sampleRequest, status := Status.completed,
    progress := 100, error := none, duration := some 1 }

/-- A sample committed audio buffer: a three-byte view at offset 1 into a
four-byte backing buffer. -/
def sampleAudio : ByteBuf := { buffer := [7, 8, 9, 10], byteOffset := 1, byteLength := 3 }

/-- A store holding one completed job together with its committed audio. -/
def completedStore : JobStore :=
  { jobs := [("job-0", completedJob)], audio := [("job-0", sampleAudio)] }

/-- A sample job still being processed. -/
def processingJob : Job :=
  { id := "job-1", request := sampleRequest, status := Status.processing,
    progress := 42, error := none, duration := none }

/-- A store holding one processing job and no audio. -/
def processingStore : JobStore := { jobs := [("job-1", processingJob)], audio := [] }

/-- A store holding a job marked completed whose audio buffer was never
committed: the defensive-invariant-violation scenario. -/
def orphanStore : JobStore := { jobs := [("job-0", completedJob)], audio := [] }

/-- A text of 100001 identical characters, one over the limit. -/
def overLimitText : String := String.mk (List.replicate 100001 'a')

/-- A text of exactly 100000 identical characters, at the limit. -/
def atLimitText : String := String.mk (List.replicate 100000 'b')

/-- A payload whose speed 100 and pitch 20 lie far outside the ranges the
specification says are clamped. -/
def unclampedPayload : Payload :=
  { text := JSVal.str "Olá mundo", voiceId := JSVal.str "fem-soft",
    speed := JSVal.num (JSNum.rat 100), pitch := JSVal.num (JSNum.rat 20),
    emotion := JSVal.str "neutro" }

/-- C1: for every job whose status is completed and whose audio buffer is
present (as a well-formed buffer view), fetchAudio returns a success response
whose body is exactly the committed audio byte buffer and whose
Content-Length equals that buffer's byte length. -/
theorem fetchAudio_completed_returns_exact_buffer
    (s : JobStore) (id : String) (job : Job) (audio : ByteBuf)
    (hj : getJob s id = some job) (hc : job.status = Status.completed)
    (ha : getJobAudio s id = some audio)
    (hwf : audio.byteOffset + audio.byteLength ≤ audio.buffer.length) :
    GET_audio s id = AudioResponse.ok audio.bytes audio.length ∧
    audio.bytes.length = audio.length := by
  constructor
  · simp [GET_audio, hj, hc, ha, ByteBuf.bytes]
  · simp only [ByteBuf.bytes, ByteBuf.length, List.length_take, List.length_drop]
    omega

/-- Concrete instantiation of the C1 theorem on `completedStore`. -/
theorem fetchAudio_completed_returns_exact_buffer_witness :
    getJob completedStore "job-0" = some completedJob ∧
    completedJob.status = Status.completed ∧
    getJobAudio completedStore "job-0" = some sampleAudio ∧
    sampleAudio.byteOffset + sampleAudio.byteLength ≤ sampleAudio.buffer.length ∧
    (GET_audio completedStore "job-0" = AudioResponse.ok sampleAudio.bytes sampleAudio.length ∧
      sampleAudio.bytes.length = sampleAudio.length) :=
  ⟨by decide, by decide, by decide, by decide,
    fetchAudio_completed_returns_exact_buffer completedStore "job-0" completedJob sampleAudio
      (by decide) (by decide) (by decide) (by decide)⟩

/-- C6: for every existing job whose status is not completed (queued,
processing, or failed), fetchAudio fails with the 409 NotReady error and
returns no audio bytes. -/
theorem fetchAudio_notCompleted_notReady
    (s : JobStore) (id : String) (job : Job)
    (hj : getJob s id = some job) (hc : job.status ≠ Status.completed) :
    GET_audio s id = AudioResponse.error 409 "Áudio ainda não disponível" := by
  simp [GET_audio, hj, hc]

/-- Concrete instantiation of the C6 theorem on `processingStore`. -/
theorem fetchAudio_notCompleted_notReady_witness :
    getJob processingStore "job-1" = some processingJob ∧
    processingJob.status ≠ Status.completed ∧
    GET_audio processingStore "job-1" = AudioResponse.error 409 "Áudio ainda não disponível" :=
  ⟨by decide, by decide,
    fetchAudio_notCompleted_notReady processingStore "job-1" processingJob
      (by decide) (by decide)⟩

/-- C7: for every job id absent from the job store, the status query and
fetchAudio both fail with the 404 NotFound error; the status query returns
its not-found signal, never a default or empty job view. -/
theorem unknownId_notFound (s : JobStore) (id : String) (h : getJob s id = none) :
    GET_status s id = StatusResponse.notFound "Job não encontrado" ∧
    GET_audio s id = AudioResponse.error 404 "Job não encontrado" := by
  constructor
  · simp [GET_status, h]
  · simp [GET_audio, h]

/-- Concrete instantiation of the C7 theorem on the empty store. -/
theorem unknownId_notFound_witness :
    getJob emptyStore "missing" = none ∧
    (GET_status emptyStore "missing" = StatusResponse.notFound "Job não encontrado" ∧
      GET_audio emptyStore "missing" = AudioResponse.error 404 "Job não encontrado") :=
  ⟨by decide, unknownId_notFound emptyStore "missing" (by decide)⟩

/-- C8: for every job marked completed whose audio buffer is absent,
fetchAudio fails with the AudioMissing error — a 404 whose message differs
from the NotFound response for an unknown id — and returns no bytes. -/
theorem completedWithoutBuffer_audioMissing
    (s : JobStore) (id : String) (job : Job)
    (hj : getJob s id = some job) (hc : job.status = Status.completed)
    (ha : getJobAudio s id = none) :
    GET_audio s id = AudioResponse.error 404 "Áudio não encontrado" ∧
    GET_audio s id ≠ AudioResponse.error 404 "Job não encontrado" := by
  have h1 : GET_audio s id = AudioResponse.error 404 "Áudio não encontrado" := by
    simp [GET_audio, hj, hc, ha]
  refine ⟨h1, ?_⟩
  rw [h1]
  decide

/-- Concrete instantiation of the C8 theorem on `orphanStore`. -/
theorem completedWithoutBuffer_audioMissing_witness :
    getJob orphanStore "job-0" = some completedJob ∧
    completedJob.status = Status.completed ∧
    getJobAudio orphanStore "job-0" = none ∧
    (GET_audio orphanStore "job-0" = AudioResponse.error 404 "Áudio não encontrado" ∧
      GET_audio orphanStore "job-0" ≠ AudioResponse.error 404 "Job não encontrado") :=
  ⟨by decide, by decide, by decide,
    completedWithoutBuffer_audioMissing orphanStore "job-0" completedJob
      (by decide) (by decide) (by decide)⟩

/-- Trimming the empty string yields the empty string. -/
lemma jsTrim_empty : jsTrim "" = "" := rfl

/-- On every payload passing all three validation guards with a catalog voice,
the submit route accepts: the fresh job id is returned and the job built from
the route's request object is registered in the store. -/
lemma POST_accepted_eq (s : JobStore) (p : Payload) (t v : String)
    (ht : p.text = JSVal.str t) (h2 : jsTrim t ≠ "")
    (h3 : t.length ≤ MAX_CHARACTERS) (hv : p.voiceId = JSVal.str v) (h4 : v ≠ "")
    (h5 : v ∈ VOICE_IDS) :
    POST s p = (PostResponse.accepted (freshId s),
      addJob s (freshId s) (buildRequest t v p)) := by
  obtain ⟨pt, pv, psp, ppi, pe⟩ := p
  simp only at ht hv
  subst ht; subst hv
  have htt : t ≠ "" := by
    intro h
    exact h2 (by rw [h]; exact jsTrim_empty)
  have hg1 : (!truthy (JSVal.str t) || jsTrim t == "") = false := by
    simp [truthy, htt, h2]
  have hg2 : exceedsLimit t = false := by
    simp only [exceedsLimit, decide_eq_false_iff_not]
    exact Nat.not_lt.mpr h3
  have hg3 : (!truthy (JSVal.str v)) = false := by
    simp [truthy, h4]
  simp [POST, hg1, hg2, hg3, createSynthesisJob, buildRequest, h5]

/-- Any payload with invalid text (missing, not a string, whitespace-only or
over the limit) or a missing or non-string voiceId is rejected with a 400 and
leaves the store untouched. -/
lemma POST_rejected_of_invalid (s : JobStore) (p : Payload)
    (h : (∀ t, p.text ≠ JSVal.str t) ∨
         (∃ t, p.text = JSVal.str t ∧ jsTrim t = "") ∨
         (∃ t, p.text = JSVal.str t ∧ MAX_CHARACTERS < t.length) ∨
         (∀ v, p.voiceId ≠ JSVal.str v)) :
    (∃ m, (POST s p).1 = PostResponse.badRequest m) ∧ (POST s p).2 = s := by
  obtain ⟨pt, pv, psp, ppi, pe⟩ := p
  simp only at h
  rcases h with h | ⟨t, ht, htrim⟩ | ⟨t, ht, hlen⟩ | h
  · cases pt with
    | str t => exact absurd rfl (h t)
    | undefined => exact ⟨⟨_, rfl⟩, rfl⟩
    | null => exact ⟨⟨_, rfl⟩, rfl⟩
    | bool b => exact ⟨⟨_, rfl⟩, rfl⟩
    | num n => exact ⟨⟨_, rfl⟩, rfl⟩
  · subst ht
    have hg1 : (!truthy (JSVal.str t) || jsTrim t == "") = true := by
      simp [htrim]
    simp [POST, hg1]
  · subst ht
    by_cases hg1 : (!truthy (JSVal.str t) || jsTrim t == "") = true
    · simp [POST, hg1]
    · have hg1f : (!truthy (JSVal.str t) || jsTrim t == "") = false :=
        Bool.eq_false_iff.mpr hg1
      have hg2 : exceedsLimit t = true := by
        simp only [exceedsLimit, decide_eq_true_eq]
        exact hlen
      simp [POST, hg1f, hg2]
  · cases pt with
    | str t =>
      by_cases hg1 : (!truthy (JSVal.str t) || jsTrim t == "") = true
      · simp [POST, hg1]
      · have hg1f : (!truthy (JSVal.str t) || jsTrim t == "") = false :=
          Bool.eq_false_iff.mpr hg1
        by_cases hg2 : exceedsLimit t = true
        · simp [POST, hg1f, hg2]
        · have hg2f : exceedsLimit t = false := Bool.eq_false_iff.mpr hg2
          cases pv with
          | str v => exact absurd rfl (h v)
          | undefined => simp [POST, hg1f, hg2f]
          | null => simp [POST, hg1f, hg2f]
          | bool b => simp [POST, hg1f, hg2f]
          | num n => simp [POST, hg1f, hg2f]
    | undefined => exact ⟨⟨_, rfl⟩, rfl⟩
    | null => exact ⟨⟨_, rfl⟩, rfl⟩
    | bool b => exact ⟨⟨_, rfl⟩, rfl⟩
    | num n => exact ⟨⟨_, rfl⟩, rfl⟩

/-- C2: every submit payload failing validation — text missing, not a string,
or whitespace-only; text over the character limit; voiceId missing or not a
string — yields a 400 InvalidRequest response, never reaches
`createSynthesisJob`, creates no job and returns no job id. -/
theorem submit_invalid_rejected (s : JobStore) (p : Payload)
    (h : (∀ t, p.text ≠ JSVal.str t) ∨
         (∃ t, p.text = JSVal.str t ∧ jsTrim t = "") ∨
         (∃ t, p.text = JSVal.str t ∧ MAX_CHARACTERS < t.length) ∨
         (∀ v, p.voiceId ≠ JSVal.str v)) :
    (∃ m, (POST s p).1 = PostResponse.badRequest m) ∧ (POST s p).2 = s :=
  POST_rejected_of_invalid s p h

/-- Concrete instantiation of the C2 theorem: a payload with no text field is
rejected with a 400 and the store is untouched. -/
theorem submit_invalid_rejected_witness :
    (∃ m, (POST emptyStore
      { text := JSVal.undefined, voiceId := JSVal.str "fem-soft",
        speed := JSVal.undefined, pitch := JSVal.undefined,
        emotion := JSVal.undefined }).1 = PostResponse.badRequest m) ∧
    (POST emptyStore
      { text := JSVal.undefined, voiceId := JSVal.str "fem-soft",
        speed := JSVal.undefined, pitch := JSVal.undefined,
        emotion := JSVal.undefined }).2 = emptyStore :=
  submit_invalid_rejected emptyStore _ (Or.inl (fun t h => by simp at h))

/-- C3: every submit payload whose text is longer than 100000 characters is
rejected with a 400 and no job is created; a text of exactly 100000
characters passes the length check. -/
theorem submit_overLimit_rejected (s : JobStore) (p : Payload) (t : String)
    (ht : p.text = JSVal.str t) (hlen : MAX_CHARACTERS < t.length) :
    ((∃ m, (POST s p).1 = PostResponse.badRequest m) ∧ (POST s p).2 = s) ∧
    (∀ u : String, u.length = MAX_CHARACTERS → exceedsLimit u = false) := by
  constructor
  · exact POST_rejected_of_invalid s p (Or.inr (Or.inr (Or.inl ⟨t, ht, hlen⟩)))
  · intro u hu
    simp only [exceedsLimit, decide_eq_false_iff_not]
    omega

/-- Concrete instantiation of the C3 theorem on a 100001-character text, with
the limit check also evaluated at a 100000-character text. -/
theorem submit_overLimit_rejected_witness :
    MAX_CHARACTERS < overLimitText.length ∧
    atLimitText.length = MAX_CHARACTERS ∧
    (((∃ m, (POST emptyStore
        { text := JSVal.str overLimitText, voiceId := JSVal.str "fem-soft",
          speed := JSVal.undefined, pitch := JSVal.undefined,
          emotion := JSVal.undefined }).1 = PostResponse.badRequest m) ∧
      (POST emptyStore
        { text := JSVal.str overLimitText, voiceId := JSVal.str "fem-soft",
          speed := JSVal.undefined, pitch := JSVal.undefined,
          emotion := JSVal.undefined }).2 = emptyStore) ∧
      (∀ u : String, u.length = MAX_CHARACTERS → exceedsLimit u = false)) :=
  ⟨by show MAX_CHARACTERS < (List.replicate 100001 'a').length
      rw [List.length_replicate]; decide,
   by show (List.replicate 100000 'b').length = MAX_CHARACTERS
      rw [List.length_replicate, MAX_CHARACTERS],
   submit_overLimit_rejected emptyStore _ overLimitText rfl
     (by show MAX_CHARACTERS < (List.replicate 100001 'a').length
         rw [List.length_replicate]; decide)⟩

/-- C4: a submit payload that is otherwise valid but whose voiceId does not
resolve in the VoiceCatalog fails at submit time: `createSynthesisJob` raises
`InvalidRequest`, no job is created (the store is unchanged) and the route
surfaces the error instead of a job id. -/
theorem submit_unknownVoice_invalidRequest (s : JobStore) (p : Payload) (t v : String)
    (ht : p.text = JSVal.str t) (h2 : jsTrim t ≠ "")
    (h3 : t.length ≤ MAX_CHARACTERS) (hv : p.voiceId = JSVal.str v) (h4 : v ≠ "")
    (h5 : v ∉ VOICE_IDS) :
    createSynthesisJob s (buildRequest t v p) =
      Except.error (SubmitError.invalidRequest "Voz não encontrada") ∧
    POST s p = (PostResponse.serverError "Voz não encontrada", s) := by
  obtain ⟨pt, pv, psp, ppi, pe⟩ := p
  simp only at ht hv
  subst ht; subst hv
  have hc : createSynthesisJob s
      (buildRequest t v ⟨JSVal.str t, JSVal.str v, psp, ppi, pe⟩) =
      Except.error (SubmitError.invalidRequest "Voz não encontrada") := by
    simp [createSynthesisJob, buildRequest, h5]
  refine ⟨hc, ?_⟩
  have htt : t ≠ "" := by
    intro h
    exact h2 (by rw [h]; exact jsTrim_empty)
  have hg1 : (!truthy (JSVal.str t) || jsTrim t == "") = false := by
    simp [truthy, htt, h2]
  have hg2 : exceedsLimit t = false := by
    simp only [exceedsLimit, decide_eq_false_iff_not]
    exact Nat.not_lt.mpr h3
  have hg3 : (!truthy (JSVal.str v)) = false := by
    simp [truthy, h4]
  simp [POST, hg1, hg2, hg3, hc, SubmitError.message]

/-- Concrete instantiation of the C4 theorem: voiceId `ghost-voice` resolves
to nothing, the submit fails with `InvalidRequest` and the store is
unchanged. -/
theorem submit_unknownVoice_invalidRequest_witness :
    ("ghost-voice" ∉ VOICE_IDS) ∧
    (createSynthesisJob emptyStore
        (buildRequest "Olá mundo" "ghost-voice"
          { text := JSVal.str "Olá mundo", voiceId := JSVal.str "ghost-voice",
            speed := JSVal.undefined, pitch := JSVal.undefined,
            emotion := JSVal.undefined }) =
      Except.error (SubmitError.invalidRequest "Voz não encontrada") ∧
    POST emptyStore
        { text := JSVal.str "Olá mundo", voiceId := JSVal.str "ghost-voice",
          speed := JSVal.undefined, pitch := JSVal.undefined,
          emotion := JSVal.undefined } =
      (PostResponse.serverError "Voz não encontrada", emptyStore)) :=
  ⟨by decide,
   submit_unknownVoice_invalidRequest emptyStore _ "Olá mundo" "ghost-voice" rfl
     (by decide) (by decide) rfl (by decide) (by decide)⟩

/-- C9 counterexample: the payload with speed 100 and pitch 20 is accepted,
the job is created from a request whose speed is still 100 and pitch still
20, and those values lie outside [0.5, 2.0] and [-10, 10]: the route clamps
nothing. -/
theorem submit_clamped_counterexample :
    (POST emptyStore unclampedPayload).1 = PostResponse.accepted "job-0" ∧
    getJob (POST emptyStore unclampedPayload).2 "job-0" =
      some (initialJob "job-0" (buildRequest "Olá mundo" "fem-soft" unclampedPayload)) ∧
    (buildRequest "Olá mundo" "fem-soft" unclampedPayload).speed = JSNum.rat 100 ∧
    (buildRequest "Olá mundo" "fem-soft" unclampedPayload).pitch = JSNum.rat 20 ∧
    ¬ ((100 : ℚ) ≤ 2) ∧ ¬ ((20 : ℚ) ≤ 10) := by
  decide

/-- C9 as amended: the route applies no clamping — for every accepted payload
with numeric speed and pitch, the request with which the job is created
carries those values unchanged, whether or not they lie in [0.5, 2.0] and
[-10, 10]. -/
theorem submit_speed_pitch_passthrough (s : JobStore) (p : Payload) (t v : String)
    (qs qp : ℚ)
    (ht : p.text = JSVal.str t) (h2 : jsTrim t ≠ "")
    (h3 : t.length ≤ MAX_CHARACTERS) (hv : p.voiceId = JSVal.str v) (h4 : v ≠ "")
    (h5 : v ∈ VOICE_IDS)
    (hs : p.speed = JSVal.num (JSNum.rat qs)) (hp : p.pitch = JSVal.num (JSNum.rat qp)) :
    POST s p = (PostResponse.accepted (freshId s),
      addJob s (freshId s) (buildRequest t v p)) ∧
    (buildRequest t v p).speed = JSNum.rat qs ∧
    (buildRequest t v p).pitch = JSNum.rat qp := by
  refine ⟨POST_accepted_eq s p t v ht h2 h3 hv h4 h5, ?_, ?_⟩
  · simp [buildRequest, coerceParam, hs]
  · simp [buildRequest, coerceParam, hp]

/-- Concrete instantiation of the amended C9 theorem on `unclampedPayload`. -/
theorem submit_speed_pitch_passthrough_witness :
    POST emptyStore unclampedPayload = (PostResponse.accepted (freshId emptyStore),
      addJob emptyStore (freshId emptyStore)
        (buildRequest "Olá mundo" "fem-soft" unclampedPayload)) ∧
    (buildRequest "Olá mundo" "fem-soft" unclampedPayload).speed = JSNum.rat 100 ∧
    (buildRequest "Olá mundo" "fem-soft" unclampedPayload).pitch = JSNum.rat 20 :=
  submit_speed_pitch_passthrough emptyStore unclampedPayload "Olá mundo" "fem-soft"
    100 20 rfl (by decide) (by decide) rfl (by decide) (by decide) rfl rfl

/-- C10: with valid text and voiceId, missing or non-numeric speed and pitch
and a non-string emotion never cause rejection: the job is created, with
speed `Number(speed ?? 1)` (hence 1 when absent), pitch `Number(pitch ?? 0)`
(hence 0 when absent) and emotion `"neutro"` whenever the supplied emotion is
not a string. -/
theorem submit_defaults (s : JobStore) (p : Payload) (t v : String)
    (ht : p.text = JSVal.str t) (h2 : jsTrim t ≠ "")
    (h3 : t.length ≤ MAX_CHARACTERS) (hv : p.voiceId = JSVal.str v) (h4 : v ≠ "")
    (h5 : v ∈ VOICE_IDS) :
    POST s p = (PostResponse.accepted (freshId s),
      addJob s (freshId s) (buildRequest t v p)) ∧
    ((∀ n, p.speed ≠ JSVal.num n) →
      (buildRequest t v p).speed = toNumber (coalesce p.speed (JSVal.num (JSNum.rat 1)))) ∧
    (p.speed = JSVal.undefined → (buildRequest t v p).speed = JSNum.rat 1) ∧
    ((∀ n, p.pitch ≠ JSVal.num n) →
      (buildRequest t v p).pitch = toNumber (coalesce p.pitch (JSVal.num (JSNum.rat 0)))) ∧
    (p.pitch = JSVal.undefined → (buildRequest t v p).pitch = JSNum.rat 0) ∧
    ((∀ e, p.emotion ≠ JSVal.str e) → (buildRequest t v p).emotion = "neutro") := by
  refine ⟨POST_accepted_eq s p t v ht h2 h3 hv h4 h5, ?_, ?_, ?_, ?_, ?_⟩
  · intro hn
    cases hs : p.speed with
    | num n => exact absurd hs (hn n)
    | undefined => simp [buildRequest, coerceParam, hs]
    | null => simp [buildRequest, coerceParam, hs]
    | bool b => simp [buildRequest, coerceParam, hs]
    | str e => simp [buildRequest, coerceParam, hs]
  · intro hu
    simp [buildRequest, coerceParam, hu, coalesce, nullish, toNumber]
  · intro hn
    cases hs : p.pitch with
    | num n => exact absurd hs (hn n)
    | undefined => simp [buildRequest, coerceParam, hs]
    | null => simp [buildRequest, coerceParam, hs]
    | bool b => simp [buildRequest, coerceParam, hs]
    | str e => simp [buildRequest, coerceParam, hs]
  · intro hu
    simp [buildRequest, coerceParam, hu, coalesce, nullish, toNumber]
  · intro he
    cases hs : p.emotion with
    | str e => exact absurd hs (he e)
    | undefined => simp [buildRequest, hs]
    | null => simp [buildRequest, hs]
    | bool b => simp [buildRequest, hs]
    | num n => simp [buildRequest, hs]

/-- Concrete instantiation of the C10 theorem: absent speed and pitch and a
numeric emotion are accepted, defaulting to speed 1, pitch 0 and emotion
`"neutro"`. -/
theorem submit_defaults_witness :
    POST emptyStore
      { text := JSVal.str "Olá mundo", voiceId := JSVal.str "masc-deep",
        speed := JSVal.undefined, pitch := JSVal.undefined,
        emotion := JSVal.num (JSNum.rat 5) } =
      (PostResponse.accepted (freshId emptyStore),
        addJob emptyStore (freshId emptyStore)
          (buildRequest "Olá mundo" "masc-deep"
            { text := JSVal.str "Olá mundo", voiceId := JSVal.str "masc-deep",
              speed := JSVal.undefined, pitch := JSVal.undefined,
              emotion := JSVal.num (JSNum.rat 5) })) ∧
    (buildRequest "Olá mundo" "masc-deep"
      { text := JSVal.str "Olá mundo", voiceId := JSVal.str "masc-deep",
        speed := JSVal.undefined, pitch := JSVal.undefined,
        emotion := JSVal.num (JSNum.rat 5) }).speed = JSNum.rat 1 ∧
    (buildRequest "Olá mundo" "masc-deep"
      { text := JSVal.str "Olá mundo", voiceId := JSVal.str "masc-deep",
        speed := JSVal.undefined, pitch := JSVal.undefined,
        emotion := JSVal.num (JSNum.rat 5) }).pitch = JSNum.rat 0 ∧
    (buildRequest "Olá mundo" "masc-deep"
      { text := JSVal.str "Olá mundo", voiceId := JSVal.str "masc-deep",
        speed := JSVal.undefined, pitch := JSVal.undefined,
        emotion := JSVal.num (JSNum.rat 5) }).emotion = "neutro" := by
  have h := submit_defaults emptyStore
    { text := JSVal.str "Olá mundo", voiceId := JSVal.str "masc-deep",
      speed := JSVal.undefined, pitch := JSVal.undefined,
      emotion := JSVal.num (JSNum.rat 5) }
    "Olá mundo" "masc-deep" rfl (by decide) (by decide) rfl (by decide) (by decide)
  exact ⟨h.1, h.2.2.1 rfl, h.2.2.2.2.1 rfl,
    h.2.2.2.2.2 (fun e hc => by simp at hc)⟩

/-- A mutation of a terminal job is a no-op. -/
lemma applyEvent_terminal (j : Job) (e : JobEvent) (h : isTerminal j = true) :
    applyEvent j e = j := by
  simp [applyEvent, h]

/-- Any sequence of mutations leaves a terminal job unchanged. -/
lemma runEvents_terminal (j : Job) (es : List JobEvent) (h : isTerminal j = true) :
    runEvents j es = j := by
  induction es with
  | nil => rfl
  | cons e es ih =>
    show runEvents (applyEvent j e) es = j
    rw [applyEvent_terminal j e h]
    exact ih

/-- A failure mutation never changes the progress value. -/
lemma applyEvent_fail_progress (j : Job) (m : String) :
    (applyEvent j (JobEvent.fail m)).progress = j.progress := by
  cases hterm : isTerminal j <;> simp [applyEvent, hterm]

/-- Progress monotonicity splits over concatenated mutation sequences. -/
lemma progressMonoB_append (j : Job) (xs ys : List JobEvent) :
    progressMonoB j (xs ++ ys) =
      (progressMonoB j xs && progressMonoB (runEvents j xs) ys) := by
  induction xs generalizing j with
  | nil => simp [progressMonoB, runEvents]
  | cons e es ih =>
    show progressMonoB j (e :: (es ++ ys)) = _
    simp only [progressMonoB, ih (applyEvent j e), Bool.and_assoc]
    rfl

/-- A processing job is not terminal. -/
lemma isTerminal_processing (j : Job) (h : j.status = Status.processing) :
    isTerminal j = false := by
  simp [isTerminal, h]

/-- Chunk-completion events keep the job processing, raise the progress to
the proportional value of the last chunk, and never decrease it. -/
lemma chunk_segment (m : Nat) :
    ∀ (i n : Nat) (j : Job), j.status = Status.processing →
      j.progress ≤ 5 + 85 * (i + 1) / n →
      progressMonoB j (chunkEventsFrom i (m + 1) n) = true ∧
      (runEvents j (chunkEventsFrom i (m + 1) n)).status = Status.processing ∧
      (runEvents j (chunkEventsFrom i (m + 1) n)).progress = 5 + 85 * (i + (m + 1)) / n := by
  induction m with
  | zero =>
    intro i n j hst hpr
    have hterm : isTerminal j = false := isTerminal_processing j hst
    refine ⟨?_, ?_, ?_⟩
    · simp [chunkEventsFrom, progressMonoB, applyEvent, hterm, hpr]
    · simp [chunkEventsFrom, runEvents, applyEvent, hterm, hst]
    · simp [chunkEventsFrom, runEvents, applyEvent, hterm]
  | succ m ih =>
    intro i n j hst hpr
    have hterm : isTerminal j = false := isTerminal_processing j hst
    have hj1 : applyEvent j (JobEvent.chunkDone (i + 1) n) =
        { j with progress := 5 + 85 * (i + 1) / n } := by
      simp [applyEvent, hterm]
    have hst1 : (applyEvent j (JobEvent.chunkDone (i + 1) n)).status = Status.processing := by
      rw [hj1]; exact hst
    have hpr1 : (applyEvent j (JobEvent.chunkDone (i + 1) n)).progress ≤
        5 + 85 * (i + 1 + 1) / n := by
      rw [hj1]
      exact Nat.add_le_add_left (Nat.div_le_div_right (by omega)) 5
    obtain ⟨hm, hs2, hp2⟩ :=
      ih (i + 1) n (applyEvent j (JobEvent.chunkDone (i + 1) n)) hst1 hpr1
    have hstep : chunkEventsFrom i (m + 1 + 1) n =
        JobEvent.chunkDone (i + 1) n :: chunkEventsFrom (i + 1) (m + 1) n := rfl
    refine ⟨?_, ?_, ?_⟩
    · rw [hstep]
      show (decide (j.progress ≤ (applyEvent j (JobEvent.chunkDone (i + 1) n)).progress) &&
        progressMonoB (applyEvent j (JobEvent.chunkDone (i + 1) n))
          (chunkEventsFrom (i + 1) (m + 1) n)) = true
      rw [hm, Bool.and_true, hj1]
      simpa using hpr
    · rw [hstep]
      show (runEvents (applyEvent j (JobEvent.chunkDone (i + 1) n))
        (chunkEventsFrom (i + 1) (m + 1) n)).status = Status.processing
      exact hs2
    · rw [hstep]
      show (runEvents (applyEvent j (JobEvent.chunkDone (i + 1) n))
        (chunkEventsFrom (i + 1) (m + 1) n)).progress = 5 + 85 * (i + (m + 1 + 1)) / n
      rw [hp2]
      have : i + 1 + (m + 1) = i + (m + 1 + 1) := by omega
      rw [this]

/-- Encoder progress events keep the job processing, never decrease progress
while the reported percentages are ordered and bounded by 100, and leave the
progress at most 100. -/
lemma encode_segment (ps : List Nat) :
    ∀ (c : Nat) (j : Job), j.status = Status.processing →
      j.progress ≤ 90 + c / 10 → c ≤ 100 →
      chainLe (c :: ps) = true →
      ps.all (fun p => decide (p ≤ 100)) = true →
      progressMonoB j (ps.map JobEvent.encodeProgress) = true ∧
      (runEvents j (ps.map JobEvent.encodeProgress)).status = Status.processing ∧
      (runEvents j (ps.map JobEvent.encodeProgress)).progress ≤ 100 := by
  induction ps with
  | nil =>
    intro c j hst hpr hc _ _
    refine ⟨rfl, hst, ?_⟩
    show j.progress ≤ 100
    have hdiv : c / 10 ≤ 10 := by
      have := Nat.div_le_div_right (c := 10) hc
      simpa using this
    omega
  | cons p ps ih =>
    intro c j hst hpr hc hchain hall
    have hcp : c ≤ p ∧ chainLe (p :: ps) = true := by
      have : (decide (c ≤ p) && chainLe (p :: ps)) = true := hchain
      simpa using this
    have hp100 : p ≤ 100 ∧ ps.all (fun q => decide (q ≤ 100)) = true := by
      simpa using hall
    have hterm : isTerminal j = false := isTerminal_processing j hst
    have hj1 : applyEvent j (JobEvent.encodeProgress p) =
        { j with progress := 90 + p / 10 } := by
      simp [applyEvent, hterm]
    have hst1 : (applyEvent j (JobEvent.encodeProgress p)).status = Status.processing := by
      rw [hj1]; exact hst
    have hpr1 : (applyEvent j (JobEvent.encodeProgress p)).progress ≤ 90 + p / 10 := by
      rw [hj1]
    obtain ⟨hm, hs2, hp2⟩ :=
      ih p (applyEvent j (JobEvent.encodeProgress p)) hst1 hpr1 hp100.1 hcp.2 hp100.2
    refine ⟨?_, hs2, hp2⟩
    show (decide (j.progress ≤ (applyEvent j (JobEvent.encodeProgress p)).progress) &&
      progressMonoB (applyEvent j (JobEvent.encodeProgress p))
        (ps.map JobEvent.encodeProgress)) = true
    rw [hm, hj1]
    have hmono : j.progress ≤ 90 + p / 10 :=
      le_trans hpr (Nat.add_le_add_left (Nat.div_le_div_right hcp.1) 90)
    simpa using hmono

/-- Completing a non-terminal job sets its status to completed and its
progress to 100. -/
lemma applyEvent_complete_eq (j : Job) (h : isTerminal j = false) :
    applyEvent j JobEvent.complete =
      { j with status := Status.completed, progress := 100 } := by
  simp [applyEvent, h]

/-- Prepending a zero keeps a percentage list ordered. -/
lemma chainLe_zero_cons (ps : List Nat) (h : chainLe ps = true) :
    chainLe (0 :: ps) = true := by
  cases ps with
  | nil => rfl
  | cons p t => simp [chainLe, h, Nat.zero_le]

/-- Along the lifetime of a job with at least one chunk whose encoder reports
ordered percentages bounded by 100, the progress value never decreases. -/
lemma pipeline_progress_mono (n : Nat) (ps : List Nat) (id : String)
    (req : SynthesisRequest) (hn : 0 < n) (hchain : chainLe ps = true)
    (hall : ps.all (fun p => decide (p ≤ 100)) = true) :
    progressMonoB (initialJob id req) (pipelineTrace n ps) = true := by
  obtain ⟨n1, rfl⟩ : ∃ n1, n = n1 + 1 := ⟨n - 1, by omega⟩
  have hterm0 : isTerminal (initialJob id req) = false := by
    simp [isTerminal, initialJob]
  have hj1 : applyEvent (initialJob id req) JobEvent.markProcessing =
      { initialJob id req with status := Status.processing, progress := 1 } := by
    simp [applyEvent, hterm0]
  have hst1 : (applyEvent (initialJob id req) JobEvent.markProcessing).status =
      Status.processing := by rw [hj1]
  have hpr1 : (applyEvent (initialJob id req) JobEvent.markProcessing).progress ≤
      5 + 85 * (0 + 1) / (n1 + 1) := by
    rw [hj1]
    show 1 ≤ 5 + 85 * (0 + 1) / (n1 + 1)
    exact le_trans (by omega) (Nat.le_add_right 5 _)
  obtain ⟨hcm, hcs, hcp⟩ :=
    chunk_segment n1 0 (n1 + 1)
      (applyEvent (initialJob id req) JobEvent.markProcessing) hst1 hpr1
  have hcp90 :
      (runEvents (applyEvent (initialJob id req) JobEvent.markProcessing)
        (chunkEventsFrom 0 (n1 + 1) (n1 + 1))).progress = 90 := by
    rw [hcp]
    have h85 : 85 * (0 + (n1 + 1)) / (n1 + 1) = 85 := by
      rw [Nat.zero_add]
      exact Nat.mul_div_cancel 85 (Nat.succ_pos n1)
    rw [h85]
  obtain ⟨hem, hes, hep⟩ :=
    encode_segment ps 0
      (runEvents (applyEvent (initialJob id req) JobEvent.markProcessing)
        (chunkEventsFrom 0 (n1 + 1) (n1 + 1)))
      hcs (by rw [hcp90]) (Nat.zero_le 100) (chainLe_zero_cons ps hchain) hall
  have hfinalTerm : isTerminal
      (runEvents
        (runEvents (applyEvent (initialJob id req) JobEvent.markProcessing)
          (chunkEventsFrom 0 (n1 + 1) (n1 + 1)))
        (ps.map JobEvent.encodeProgress)) = false :=
    isTerminal_processing _ hes
  have hcomplete : progressMonoB
      (runEvents
        (runEvents (applyEvent (initialJob id req) JobEvent.markProcessing)
          (chunkEventsFrom 0 (n1 + 1) (n1 + 1)))
        (ps.map JobEvent.encodeProgress)) [JobEvent.complete] = true := by
    have hfc := applyEvent_complete_eq
      (runEvents
        (runEvents (applyEvent (initialJob id req) JobEvent.markProcessing)
          (chunkEventsFrom 0 (n1 + 1) (n1 + 1)))
        (ps.map JobEvent.encodeProgress)) hfinalTerm
    show (decide
        ((runEvents
            (runEvents (applyEvent (initialJob id req) JobEvent.markProcessing)
              (chunkEventsFrom 0 (n1 + 1) (n1 + 1)))
            (ps.map JobEvent.encodeProgress)).progress ≤
          (applyEvent
            (runEvents
              (runEvents (applyEvent (initialJob id req) JobEvent.markProcessing)
                (chunkEventsFrom 0 (n1 + 1) (n1 + 1)))
              (ps.map JobEvent.encodeProgress)) JobEvent.complete).progress) &&
        progressMonoB
          (applyEvent
            (runEvents
              (runEvents (applyEvent (initialJob id req) JobEvent.markProcessing)
                (chunkEventsFrom 0 (n1 + 1) (n1 + 1)))
              (ps.map JobEvent.encodeProgress)) JobEvent.complete) []) = true
    rw [hfc, Bool.and_eq_true]
    refine ⟨?_, rfl⟩
    simpa using hep
  show progressMonoB (initialJob id req)
    (JobEvent.markProcessing ::
      (chunkEventsFrom 0 (n1 + 1) (n1 + 1) ++
        (ps.map JobEvent.encodeProgress ++ [JobEvent.complete]))) = true
  show (decide ((initialJob id req).progress ≤
      (applyEvent (initialJob id req) JobEvent.markProcessing).progress) &&
    progressMonoB (applyEvent (initialJob id req) JobEvent.markProcessing)
      (chunkEventsFrom 0 (n1 + 1) (n1 + 1) ++
        (ps.map JobEvent.encodeProgress ++ [JobEvent.complete]))) = true
  rw [Bool.and_eq_true]
  constructor
  · rw [hj1]
    simp [initialJob]
  · rw [progressMonoB_append, hcm, progressMonoB_append, hem, hcomplete]
    rfl

/-- C5: pipeline mutations never decrease a job's progress along its lifetime
(setup, ordered chunk completions, ordered bounded encoder progress,
completion), a failure mutation keeps the progress value, and once a job is
terminal every later mutation leaves it entirely unchanged. -/
theorem job_progress_monotone_terminal_final :
    (∀ (j : Job) (es : List JobEvent), isTerminal j = true → runEvents j es = j) ∧
    (∀ (j : Job) (m : String), (applyEvent j (JobEvent.fail m)).progress = j.progress) ∧
    (∀ (n : Nat) (ps : List Nat) (id : String) (req : SynthesisRequest),
      0 < n → chainLe ps = true → ps.all (fun p => decide (p ≤ 100)) = true →
      progressMonoB (initialJob id req) (pipelineTrace n ps) = true) :=
  ⟨runEvents_terminal, applyEvent_fail_progress, pipeline_progress_mono⟩

/-- Concrete instantiation of the C5 theorem: a three-chunk pipeline with
encoder reports 20, 60, 100 is monotone, and a completed job is unchanged by
a later chunk mutation. -/
theorem job_progress_monotone_terminal_final_witness :
    0 < 3 ∧ chainLe [20, 60, 100] = true ∧
    ([20, 60, 100].all (fun p => decide (p ≤ 100)) = true) ∧
    isTerminal completedJob = true ∧
    progressMonoB (initialJob "job-0" sampleRequest)
      (pipelineTrace 3 [20, 60, 100]) = true ∧
    runEvents completedJob [JobEvent.chunkDone 1 2] = completedJob :=
  ⟨by decide, by decide, by decide, by decide,
    job_progress_monotone_terminal_final.2.2 3 [20, 60, 100] "job-0" sampleRequest
      (by decide) (by decide) (by decide),
    job_progress_monotone_terminal_final.1 completedJob [JobEvent.chunkDone 1 2]
      (by decide)⟩

end TTS
